import Mathlib

/-!
Verification of `minilisp.py`, a Mini-LISP interpreter: lexer (`tokenize`),
s-expression reader (`read_sexp`), AST builder (`parse_stmt` / `parse_exp`)
and tree-walking evaluator (the `eval` methods) are embedded below as
executable Lean functions.  Environments live in an addressed store so that a
closure's captured environment is a shared, mutable reference exactly as in
the source.  All recursion is fueled and structural, so every definition
reduces inside the kernel and concrete programs can be settled by `rfl`.
-/

set_option linter.unusedVariables false

namespace MiniLisp

/-- S-expressions as produced by the reader (`read_sexp` in `minilisp.py`):
an atom (boolean, integer or symbol) or a list of s-expressions. -/
inductive Sexp where
  | bool : Bool → Sexp
  | int : Int → Sexp
  | sym : String → Sexp
  | list : List Sexp → Sexp
deriving Repr

/-- Literal payload of a `Val` node; `parse_exp` only wraps Python ints and
bools into `Val`. -/
inductive Lit where
  | int : Int → Lit
  | bool : Bool → Lit
deriving Repr

/-- AST nodes, one constructor per node class in `minilisp.py`
(`Val`, `Var`, `Def`, `If`, `Fun`, `Call`, `Op`, `Print`).  `defn`'s name and
`fn`'s parameter list are raw s-expressions, exactly as the source stores
`s[1]` without validating it. -/
inductive Node where
  | val : Lit → Node
  | varn : String → Node
  | defn : Sexp → Node → Node
  | ifn : Node → Node → Node → Node
  | fn : List Sexp → List Node → Node
  | call : Node → List Node → Node
  | op : String → List Node → Node
  | print : Bool → Node → Node
deriving Repr

/-- Runtime values: Python ints, bools, `Closure` objects (parameter list,
body, and the address of the captured environment frame) and Python `None`
(the implicit return value of `Def.eval` and `Print.eval`). -/
inductive Value where
  | int : Int → Value
  | bool : Bool → Value
  | closure : List Sexp → List Node → Nat → Value
  | vnone : Value
deriving Repr

/-- Python dict keys that can occur in an environment: strings (the normal
case), and ints or bools smuggled in by an unvalidated `define` name. -/
inductive EKey where
  | str : String → EKey
  | int : Int → EKey
  | bool : Bool → EKey
deriving Repr

/-- Python `==` (and hash) equivalence on dict keys: `True == 1`, `False == 0`. -/
def pyKeyEq : EKey → EKey → Bool
  | .str a, .str b => a == b
  | .int a, .int b => a == b
  | .bool a, .bool b => a == b
  | .int a, .bool b => a == (if b then (1 : Int) else 0)
  | .bool a, .int b => (if a then (1 : Int) else 0) == b
  | _, _ => false

/-- One environment frame (`Env` in the source): a dict plus a parent
pointer.  Frames live in a store and are referred to by address, so a
closure's captured environment is a shared mutable reference, never a
snapshot. -/
structure Frame where
  bindings : List (EKey × Value)
  par : Option Nat
deriving Repr

/-- Interpreter state: the store of all frames ever created (address =
index; frame 0 is the global environment) and the lines printed so far. -/
structure St where
  frames : List Frame
  out : List String
deriving Repr

/-- Dict lookup with Python key equality. -/
def lookupKey (bs : List (EKey × Value)) (k : EKey) : Option Value :=
  match bs with
  | [] => none
  | (k', v) :: rest => if pyKeyEq k' k then some v else lookupKey rest k

/-- Dict insertion/update `d[k] = v` (updates keep the original key object,
as Python dicts do). -/
def setKey (bs : List (EKey × Value)) (k : EKey) (v : Value) : List (EKey × Value) :=
  match bs with
  | [] => [(k, v)]
  | (k', v') :: rest =>
    if pyKeyEq k' k then (k', v) :: rest else (k', v') :: setKey rest k v

/-- Hashing an s-expression as a dict key: atoms are hashable, lists raise
`TypeError: unhashable type: 'list'`. -/
def keyOfSexp : Sexp → Option EKey
  | .sym s => some (.str s)
  | .int i => some (.int i)
  | .bool b => some (.bool b)
  | .list _ => none

/-- Update one binding of the frame at address `a`. -/
def setBinding (st : St) (a : Nat) (k : EKey) (v : Value) : St :=
  match st.frames[a]? with
  | none => st
  | some fr =>
    { st with frames := st.frames.set a { fr with bindings := setKey fr.bindings k v } }

/-- `typeof` from the source: the type word used in error messages
(`None` falls into the `"function"` bucket, as in the source). -/
def typeof : Value → String
  | .int _ => "number"
  | .bool _ => "boolean"
  | _ => "function"

/-- Outcome of running a piece of the interpreter: a normal result, an error
message printed by `error_runtime` / `error_syntax` just before
`sys.exit(0)`, an uncaught host (Python) exception, or exhaustion of the
model's fuel. -/
inductive Res (α : Type) where
  | ok : α → Res α
  | err : String → Res α
  | crash : String → Res α
  | timeout : Res α
deriving Repr

def Res.map {α β : Type} (f : α → β) : Res α → Res β
  | .ok a => .ok (f a)
  | .err m => .err m
  | .crash m => .crash m
  | .timeout => .timeout

def Res.bind {α β : Type} (r : Res α) (k : α → Res β) : Res β :=
  match r with
  | .ok a => k a
  | .err m => .err m
  | .crash m => .crash m
  | .timeout => .timeout

/-- `check_num`: a value used as a number must be a Python int
(`type(v) is int`, so `True` is not a number), otherwise
`Type Error: Expect 'number' but got 'TYPE'.`. -/
def check_num (v : Value) : Res Int :=
  match v with
  | .int i => .ok i
  | _ => .err ("Type Error: Expect 'number' but got '" ++ typeof v ++ "'.")

/-- `check_bool`: a value used as a boolean must be a Python bool, otherwise
`Type Error: Expect 'boolean' but got 'TYPE'.`. -/
def check_bool (v : Value) : Res Bool :=
  match v with
  | .bool b => .ok b
  | _ => .err ("Type Error: Expect 'boolean' but got '" ++ typeof v ++ "'.")

/-- Python `str()` of an s-expression atom, as interpolated into error
messages (`str(True)` is `"True"`).  Lists never reach these messages: they
crash earlier as unhashable dict keys, so the list case is a placeholder. -/
def pyAtomStr : Sexp → String
  | .sym s => s
  | .int i => toString i
  | .bool true => "True"
  | .bool false => "False"
  | .list _ => "[...]"

/-! ### Python float model

`Op.eval` computes `/` as `int(check_num(v1)/v2)` and `mod` as
`int(math.fmod(check_num(v1), check_num(v2)))`.  Both routes go through
IEEE-754 doubles: CPython's int `/` produces the correctly rounded (round
half to even) double of the exact quotient, raising `OverflowError` when it
reaches `2^1024`, and `math.fmod` first converts both ints to doubles.  The
model below computes that rounding exactly with integer arithmetic. -/

/-- Fueled floor-log2; the fuel only drives termination, and `nlog2 n` is
`Nat.log2 n`. -/
def log2F : Nat → Nat → Nat
  | 0, _ => 0
  | f + 1, n => if 2 ≤ n then log2F f (n / 2) + 1 else 0

def nlog2 (n : Nat) : Nat := log2F n n

/-- Floor of `log2 (p / q)` for `p, q ≥ 1`. -/
def flog2 (p q : Nat) : Int :=
  if q * 2 ^ nlog2 p ≤ p * 2 ^ nlog2 q then (nlog2 p : Int) - nlog2 q
  else (nlog2 p : Int) - nlog2 q - 1

/-- Mantissa and exponent of the IEEE-754 double nearest to `p / q`
(`p, q ≥ 1`), rounding half to even: the result `(m, f)` denotes the value
`m * 2 ^ (f - 52)` with `2 ^ 52 ≤ m < 2 ^ 53`. -/
def rnd53 (p q : Nat) : Nat × Int :=
  let f := flog2 p q
  let N := p * 2 ^ (52 - f).toNat
  let D := q * 2 ^ (f - 52).toNat
  let qq := N / D
  let r := N % D
  let m :=
    if D < 2 * r then qq + 1
    else if 2 * r < D then qq
    else if qq % 2 = 0 then qq else qq + 1
  if m = 2 ^ 53 then (2 ^ 52, f + 1) else (m, f)

/-- Truncation toward zero (Python `int()`) of the positive double
`m * 2 ^ (f - 52)`. -/
def truncDouble (m : Nat) (f : Int) : Nat :=
  if 52 ≤ f then m * 2 ^ (f - 52).toNat else m / 2 ^ (52 - f).toNat

/-- Python `int(a / b)` for ints with `b ≠ 0`: the correctly rounded double
of the exact quotient, truncated toward zero; `OverflowError` at `2^1024`. -/
def pyIntTrueDiv (a b : Int) : Res Int :=
  if a = 0 then .ok 0
  else
    let mf := rnd53 a.natAbs b.natAbs
    if 1024 ≤ mf.2 then .crash "OverflowError: integer division result too large for a float"
    else
      let n : Int := truncDouble mf.1 mf.2
      .ok (if a.sign = b.sign then n else -n)

/-- Python `float(a)` for an int, as an exact integer (the double nearest to
an integer is itself integer-valued); `OverflowError` at `2^1024`. -/
def pyFloatInt (a : Int) : Res Int :=
  if a = 0 then .ok 0
  else
    let mf := rnd53 a.natAbs 1
    if 1024 ≤ mf.2 then .crash "OverflowError: int too large to convert to float"
    else
      let n : Int := truncDouble mf.1 mf.2
      .ok (if a < 0 then -n else n)

/-- Python `int(math.fmod(a, b))`: both ints are converted to doubles
(rounding!), the IEEE `fmod` — which is exact, and on integer-valued doubles
equals the truncated remainder — is applied, and `int()` maps the
integer-valued result to itself.  `fmod(x, 0.0)` raises `ValueError`. -/
def pyFmodInt (a b : Int) : Res Int :=
  (pyFloatInt a).bind fun x =>
    (pyFloatInt b).bind fun y =>
      if y = 0 then .crash "ValueError: math domain error" else .ok (Int.tmod x y)

/-- Python `sum(check_num(x) for x in vs)`: a left fold starting at 0,
type-checking each operand as it is reached. -/
def sumNums (acc : Int) : List Value → Res Value
  | [] => .ok (.int acc)
  | x :: rest => (check_num x).bind fun i => sumNums (acc + i) rest

/-- The `*` loop of `Op.eval`: `r = 1`, then `r *= check_num(x)`. -/
def prodNums (acc : Int) : List Value → Res Value
  | [] => .ok (.int acc)
  | x :: rest => (check_num x).bind fun i => prodNums (acc * i) rest

/-- Python `all(check_num(x) == check_num(vs[0]) for x in vs)`: left to
right, re-checking `vs[0]` at each step, and stopping — with later operands
left unchecked — at the first unequal pair. -/
def eqChain (v0 : Value) : List Value → Res Value
  | [] => .ok (.bool true)
  | x :: rest =>
    (check_num x).bind fun xi =>
      (check_num v0).bind fun h =>
        if xi = h then eqChain v0 rest else .ok (.bool false)

/-- The non-short-circuit arm of `Op.eval`, applied to the already evaluated
operand list `vs` (arity has been checked, so the `getD` defaults are never
used).  Note the source's check order: `/` checks the divisor before the
dividend, `-`, `mod`, `>`, `<` check left to right. -/
def applyOp (o : String) (vs : List Value) : Res Value :=
  if o = "not" then
    (check_bool (vs.getD 0 .vnone)).bind fun b => .ok (.bool (!b))
  else if o = "+" then sumNums 0 vs
  else if o = "*" then prodNums 1 vs
  else
    let v1 := vs.getD 0 .vnone
    let v2 := vs.getD 1 .vnone
    if o = "-" then
      (check_num v1).bind fun a => (check_num v2).bind fun b => .ok (.int (a - b))
    else if o = "/" then
      (check_num v2).bind fun b =>
        if b = 0 then .err "Error: Division by zero"
        else (check_num v1).bind fun a => (pyIntTrueDiv a b).bind fun n => .ok (.int n)
    else if o = "mod" then
      (check_num v1).bind fun a => (check_num v2).bind fun b =>
        (pyFmodInt a b).bind fun n => .ok (.int n)
    else if o = ">" then
      (check_num v1).bind fun a => (check_num v2).bind fun b => .ok (.bool (decide (b < a)))
    else if o = "<" then
      (check_num v1).bind fun a => (check_num v2).bind fun b => .ok (.bool (decide (a < b)))
    else if o = "=" then eqChain (vs.getD 0 .vnone) vs
    else .ok .vnone

/-! ### The evaluator -/

/-- Work items of the fueled evaluator: `node` is a `Node.eval` call; the
others model the loops inside `Env.find`, a function body, argument binding
(`for n, arg in zip(...)`), the lazy `all` / `any` of `and` / `or`, and the
operand-list comprehension of the other operators. -/
inductive MTask where
  | node : Node → Nat → MTask
  | find : Nat → String → MTask
  | body : List Node → Nat → Value → MTask
  | bindArgs : List Sexp → List Node → Nat → Nat → MTask
  | conj : List Node → Nat → MTask
  | disj : List Node → Nat → MTask
  | evArgs : List Node → Nat → List Value → MTask

/-- Result of a work item: a single value, or (for `evArgs`) a value list. -/
inductive RVal where
  | v : Value → RVal
  | vs : List Value → RVal

/-- Sequence a machine result that must be a single value. -/
def bindV (r : St × Res RVal) (k : St → Value → St × Res RVal) : St × Res RVal :=
  match r with
  | (st, .ok (.v v)) => k st v
  | (st, .ok (.vs _)) => (st, .crash "model-internal")
  | (st, .err m) => (st, .err m)
  | (st, .crash m) => (st, .crash m)
  | (st, .timeout) => (st, .timeout)

/-- The evaluator of `minilisp.py` as one fueled function.  Fuel decreases on
every recursive call, so the recursion is structural and the kernel can run
it; all concrete programs below finish far inside the supplied fuel. -/
def step : Nat → MTask → St → St × Res RVal
  | 0, _, st => (st, .timeout)
  | fuel + 1, t, st =>
    match t with
    | .find a n =>
      match st.frames[a]? with
      | none => (st, .crash "model-internal")
      | some fr =>
        match lookupKey fr.bindings (.str n) with
        | some v => (st, .ok (.v v))
        | none =>
          match fr.par with
          | some p => step fuel (.find p n) st
          | none => (st, .err ("Error: Variable " ++ n ++ " not defined"))
    | .body [] e res => (st, .ok (.v res))
    | .body (s :: rest) e res =>
      bindV (step fuel (.node s e) st) fun st1 v => step fuel (.body rest e v) st1
    | .bindArgs ps args ce ne =>
      match ps, args with
      | [], _ => (st, .ok (.v .vnone))
      | _ :: _, [] => (st, .ok (.v .vnone))
      | p :: ps', a :: args' =>
        bindV (step fuel (.node a ce) st) fun st1 v =>
          match keyOfSexp p with
          | none => (st1, .crash "TypeError: unhashable type: 'list'")
          | some k => step fuel (.bindArgs ps' args' ce ne) (setBinding st1 ne k v)
    | .conj [] e => (st, .ok (.v (.bool true)))
    | .conj (a :: rest) e =>
      bindV (step fuel (.node a e) st) fun st1 v =>
        match check_bool v with
        | .ok true => step fuel (.conj rest e) st1
        | .ok false => (st1, .ok (.v (.bool false)))
        | .err m => (st1, .err m)
        | .crash m => (st1, .crash m)
        | .timeout => (st1, .timeout)
    | .disj [] e => (st, .ok (.v (.bool false)))
    | .disj (a :: rest) e =>
      bindV (step fuel (.node a e) st) fun st1 v =>
        match check_bool v with
        | .ok true => (st1, .ok (.v (.bool true)))
        | .ok false => step fuel (.disj rest e) st1
        | .err m => (st1, .err m)
        | .crash m => (st1, .crash m)
        | .timeout => (st1, .timeout)
    | .evArgs [] e acc => (st, .ok (.vs acc.reverse))
    | .evArgs (a :: rest) e acc =>
      bindV (step fuel (.node a e) st) fun st1 v =>
        step fuel (.evArgs rest e (v :: acc)) st1
    | .node n e =>
      match n with
      | .val (.int i) => (st, .ok (.v (.int i)))
      | .val (.bool b) => (st, .ok (.v (.bool b)))
      | .varn x => step fuel (.find e x) st
      | .defn name rhs =>
        match keyOfSexp name with
        | none => (st, .crash "TypeError: unhashable type: 'list'")
        | some k =>
          match st.frames[e]? with
          | none => (st, .crash "model-internal")
          | some fr =>
            if (lookupKey fr.bindings k).isSome then
              (st, .err ("Error: Redefining " ++ pyAtomStr name ++ " is not allowed."))
            else
              bindV (step fuel (.node rhs e) st) fun st1 v =>
                (setBinding st1 e k v, .ok (.v .vnone))
      | .ifn tc a b =>
        bindV (step fuel (.node tc e) st) fun st1 v =>
          match check_bool v with
          | .ok true => step fuel (.node a e) st1
          | .ok false => step fuel (.node b e) st1
          | .err m => (st1, .err m)
          | .crash m => (st1, .crash m)
          | .timeout => (st1, .timeout)
      | .fn ps body => (st, .ok (.v (.closure ps body e)))
      | .call f args =>
        bindV (step fuel (.node f e) st) fun st1 fv =>
          match fv with
          | .closure ps body ea =>
            if args.length ≠ ps.length then
              (st1, .err ("Need " ++ toString ps.length ++ " arguments, but got "
                ++ toString args.length ++ "."))
            else
              let addr := st1.frames.length
              let st2 : St := { st1 with frames := st1.frames ++ [⟨[], some ea⟩] }
              bindV (step fuel (.bindArgs ps args e addr) st2) fun st3 _ =>
                step fuel (.body body addr .vnone) st3
          | _ => (st1, .err ("Type Error: Expect 'function' but got '" ++ typeof fv ++ "'."))
      | .op o args =>
        let cnt := args.length
        if (o = "+" ∨ o = "*" ∨ o = "=" ∨ o = "and" ∨ o = "or") ∧ cnt < 2 then
          (st, .err ("Error: Need at least 2 arguments, but got " ++ toString cnt ++ "."))
        else if (o = "-" ∨ o = "/" ∨ o = "mod" ∨ o = ">" ∨ o = "<") ∧ cnt ≠ 2 then
          (st, .err ("Error: Need 2 arguments, but got " ++ toString cnt ++ "."))
        else if o = "not" ∧ cnt ≠ 1 then
          (st, .err ("Error: Need 1 argument, but got " ++ toString cnt ++ "."))
        else if o = "and" then step fuel (.conj args e) st
        else if o = "or" then step fuel (.disj args e) st
        else
          match step fuel (.evArgs args e []) st with
          | (st1, .ok (.vs vs)) => (st1, (applyOp o vs).map RVal.v)
          | (st1, .ok (.v _)) => (st1, .crash "model-internal")
          | (st1, .err m) => (st1, .err m)
          | (st1, .crash m) => (st1, .crash m)
          | (st1, .timeout) => (st1, .timeout)
      | .print isNum x =>
        bindV (step fuel (.node x e) st) fun st1 v =>
          if isNum then
            match check_num v with
            | .ok i => ({ st1 with out := st1.out ++ [toString i] }, .ok (.v .vnone))
            | .err m => (st1, .err m)
            | .crash m => (st1, .crash m)
            | .timeout => (st1, .timeout)
          else
            match check_bool v with
            | .ok b =>
              ({ st1 with out := st1.out ++ [if b then "#t" else "#f"] }, .ok (.v .vnone))
            | .err m => (st1, .err m)
            | .crash m => (st1, .crash m)
            | .timeout => (st1, .timeout)

/-! ### Lexer -/

def isNonzeroDigit (c : Char) : Bool := c.isDigit && c != '0'

def isIdentC (c : Char) : Bool := c.isLower || c.isDigit || c == '-'

def isOpC (c : Char) : Bool :=
  c == '+' || c == '*' || c == '/' || c == '<' || c == '>' || c == '='

/-- Greedy span, structurally recursive. -/
def spanP (p : Char → Bool) : List Char → List Char × List Char
  | [] => ([], [])
  | c :: cs =>
    if p c then
      let tr := spanP p cs
      (c :: tr.1, tr.2)
    else ([], c :: cs)

/-- `tokenize`, i.e. `re.findall` with the source's pattern: at each position
the alternatives are tried in order (`(`, `)`, `#t`, `#f`, `0`,
`-?[1-9]\d*`, `[a-z][a-z0-9\-]*`, `[+*/<>=]`, `-`; the `mod|and|or|not`
alternatives are shadowed by the identifier rule), each with greedy
repetition; a character matched by no alternative is skipped. -/
def tokenizeF : Nat → List Char → List String
  | 0, _ => []
  | _ + 1, [] => []
  | fuel + 1, c :: cs =>
    if c == '(' then "(" :: tokenizeF fuel cs
    else if c == ')' then ")" :: tokenizeF fuel cs
    else if c == '#' then
      match cs with
      | 't' :: cs' => "#t" :: tokenizeF fuel cs'
      | 'f' :: cs' => "#f" :: tokenizeF fuel cs'
      | _ => tokenizeF fuel cs
    else if c == '0' then "0" :: tokenizeF fuel cs
    else if isNonzeroDigit c then
      let dr := spanP Char.isDigit cs
      String.mk (c :: dr.1) :: tokenizeF fuel dr.2
    else if c == '-' then
      match cs with
      | d :: cs' =>
        if isNonzeroDigit d then
          let dr := spanP Char.isDigit cs'
          String.mk ('-' :: d :: dr.1) :: tokenizeF fuel dr.2
        else "-" :: tokenizeF fuel cs
      | [] => ["-"]
    else if c.isLower then
      let dr := spanP isIdentC cs
      String.mk (c :: dr.1) :: tokenizeF fuel dr.2
    else if isOpC c then String.mk [c] :: tokenizeF fuel cs
    else tokenizeF fuel cs

def tokenize (s : String) : List String := tokenizeF (s.length + 1) s.data

/-! ### Reader and AST builder -/

def digitsToNat (acc : Nat) : List Char → Nat
  | [] => acc
  | c :: cs => digitsToNat (acc * 10 + (c.toNat - '0'.toNat)) cs

/-- The integer test of `read_sexp`: `re.match(r'0|-?[1-9]\d*$', t)`.  The
`0` alternative is unanchored at the end, but the lexer only ever emits `0`
as a lone zero-initial token. -/
def isIntTok (t : String) : Bool :=
  match t.data with
  | [] => false
  | '0' :: _ => true
  | '-' :: d :: ds => isNonzeroDigit d && ds.all Char.isDigit
  | d :: ds => isNonzeroDigit d && ds.all Char.isDigit

def strToInt (t : String) : Int :=
  match t.data with
  | '-' :: ds => -(digitsToNat 0 ds : Int)
  | ds => (digitsToNat 0 ds : Int)

/-- Atom classification in `read_sexp`: `#t`, `#f`, integer literal, symbol. -/
def atomOf (t : String) : Sexp :=
  if t == "#t" then .bool true
  else if t == "#f" then .bool false
  else if isIntTok t then .int (strToInt t)
  else .sym t

/-- Parse-phase outcomes: `error_syntax()` with or without an offending
token, fuel exhaustion of the model, and an unreachable internal marker. -/
inductive PErr where
  | syn : Option String → PErr
  | fuel : PErr
  | bug : PErr
deriving Repr

inductive RTask where
  | one : List String → RTask
  | many : List Sexp → List String → RTask

/-- `read_sexp`: read one s-expression from the token stream (`many` is the
list-reading loop, accumulating children until the matching `)`; running out
of tokens is a bare syntax error, a leading `)` reports the token). -/
def readS : Nat → RTask → Except PErr (Sexp × List String)
  | 0, _ => .error .fuel
  | fuel + 1, .one ts =>
    match ts with
    | [] => .error (.syn none)
    | t :: rest =>
      if t == "(" then readS fuel (.many [] rest)
      else if t == ")" then .error (.syn (some t))
      else .ok (atomOf t, rest)
  | fuel + 1, .many acc ts =>
    match ts with
    | [] => .error (.syn none)
    | t :: rest =>
      if t == ")" then .ok (.list acc, rest)
      else
        match readS fuel (.one ts) with
        | .error e => .error e
        | .ok (s, ts') => readS fuel (.many (acc ++ [s]) ts')

/-- The operator spellings recognized by `parse_exp`. -/
def opNames : List String :=
  ["+", "-", "*", "/", "mod", ">", "<", "=", "and", "or", "not"]

inductive PTask where
  | stmt : Sexp → PTask
  | exp : Sexp → PTask
  | exps : List Sexp → PTask
  | stmts : List Sexp → PTask

inductive PRes where
  | one : Node → PRes
  | many : List Node → PRes

/-- `parse_stmt` / `parse_exp` and their list comprehensions, fueled.
`stmt` recognizes `define` / `print-num` / `print-bool` heads (with exact
length checks but no validation of the `define` name) and falls back to
`exp`; `exp` handles atoms, `if`, `fun`, operator forms (no arity check at
parse time) and generic calls. -/
def parseT : Nat → PTask → Except PErr PRes
  | 0, _ => .error .fuel
  | fuel + 1, .stmts [] => .ok (.many [])
  | fuel + 1, .stmts (s :: rest) =>
    match parseT fuel (.stmt s) with
    | .ok (.one n) =>
      match parseT fuel (.stmts rest) with
      | .ok (.many ns) => .ok (.many (n :: ns))
      | .ok (.one _) => .error .bug
      | .error e => .error e
    | .ok (.many _) => .error .bug
    | .error e => .error e
  | fuel + 1, .exps [] => .ok (.many [])
  | fuel + 1, .exps (s :: rest) =>
    match parseT fuel (.exp s) with
    | .ok (.one n) =>
      match parseT fuel (.exps rest) with
      | .ok (.many ns) => .ok (.many (n :: ns))
      | .ok (.one _) => .error .bug
      | .error e => .error e
    | .ok (.many _) => .error .bug
    | .error e => .error e
  | fuel + 1, .stmt s =>
    match s with
    | .list (.sym "define" :: rest) =>
      match rest with
      | [n, e] =>
        match parseT fuel (.exp e) with
        | .ok (.one en) => .ok (.one (.defn n en))
        | .ok (.many _) => .error .bug
        | .error er => .error er
      | _ => .error (.syn (some "define"))
    | .list (.sym "print-num" :: rest) =>
      match rest with
      | [x] =>
        match parseT fuel (.exp x) with
        | .ok (.one xn) => .ok (.one (.print true xn))
        | .ok (.many _) => .error .bug
        | .error er => .error er
      | _ => .error (.syn (some "print-num"))
    | .list (.sym "print-bool" :: rest) =>
      match rest with
      | [x] =>
        match parseT fuel (.exp x) with
        | .ok (.one xn) => .ok (.one (.print false xn))
        | .ok (.many _) => .error .bug
        | .error er => .error er
      | _ => .error (.syn (some "print-bool"))
    | _ => parseT fuel (.exp s)
  | fuel + 1, .exp s =>
    match s with
    | .int i => .ok (.one (.val (.int i)))
    | .bool b => .ok (.one (.val (.bool b)))
    | .sym x =>
      if opNames.contains x then .error (.syn (some x)) else .ok (.one (.varn x))
    | .list [] => .error (.syn none)
    | .list (h :: args) =>
      match h with
      | .sym "if" =>
        match args with
        | [tc, a, b] =>
          match parseT fuel (.exp tc) with
          | .ok (.one tn) =>
            match parseT fuel (.exp a) with
            | .ok (.one an) =>
              match parseT fuel (.exp b) with
              | .ok (.one bn) => .ok (.one (.ifn tn an bn))
              | .ok (.many _) => .error .bug
              | .error er => .error er
            | .ok (.many _) => .error .bug
            | .error er => .error er
          | .ok (.many _) => .error .bug
          | .error er => .error er
        | _ => .error (.syn (some "if"))
      | .sym "fun" =>
        match args with
        | params :: b1 :: brest =>
          match params with
          | .list pl =>
            match parseT fuel (.stmts (b1 :: brest)) with
            | .ok (.many body) => .ok (.one (.fn pl body))
            | .ok (.one _) => .error .bug
            | .error er => .error er
          | _ => .error (.syn (some (pyAtomStr params)))
        | _ => .error (.syn (some "fun"))
      | .sym o =>
        if opNames.contains o then
          match parseT fuel (.exps args) with
          | .ok (.many ns) => .ok (.one (.op o ns))
          | .ok (.one _) => .error .bug
          | .error er => .error er
        else
          match parseT fuel (.exp h) with
          | .ok (.one cf) =>
            match parseT fuel (.exps args) with
            | .ok (.many ns) => .ok (.one (.call cf ns))
            | .ok (.one _) => .error .bug
            | .error er => .error er
          | .ok (.many _) => .error .bug
          | .error er => .error er
      | _ =>
        match parseT fuel (.exp h) with
        | .ok (.one cf) =>
          match parseT fuel (.exps args) with
          | .ok (.many ns) => .ok (.one (.call cf ns))
          | .ok (.one _) => .error .bug
          | .error er => .error er
        | .ok (.many _) => .error .bug
        | .error er => .error er

/-- `parse_prog`: repeatedly read one s-expression and convert it to a
statement node (interleaved, so a later reader error cannot mask an earlier
builder error) until the token stream is empty. -/
def parseProg (pfuel : Nat) : Nat → List String → Except PErr (List Node)
  | 0, _ => .error .fuel
  | _ + 1, [] => .ok []
  | fuel + 1, ts =>
    match readS (2 * ts.length + 4) (.one ts) with
    | .error e => .error e
    | .ok (s, ts') =>
      match parseT pfuel (.stmt s) with
      | .ok (.one n) =>
        match parseProg pfuel fuel ts' with
        | .ok ns => .ok (n :: ns)
        | .error e => .error e
      | .ok (.many _) => .error .bug
      | .error e => .error e

/-! ### Driver -/

/-- The initial state: one empty global frame, nothing printed. -/
def st0 : St := ⟨[⟨[], none⟩], []⟩

/-- The main loop: `for n in nodes: n.eval(env)`. -/
def runStmts (fuel : Nat) : List Node → St → St × Res Unit
  | [], st => (st, .ok ())
  | n :: rest, st =>
    match step fuel (.node n 0) st with
    | (st1, .ok _) => runStmts fuel rest st1
    | (st1, .err m) => (st1, .err m)
    | (st1, .crash m) => (st1, .crash m)
    | (st1, .timeout) => (st1, .timeout)

/-- Lex and parse a source text (the fuels are ample: the reader consumes at
least one token per call and the builder's recursion is bounded by the
number of tokens). -/
def parseLisp (src : String) : Except PErr (List Node) :=
  let ts := tokenize src
  parseProg (2 * ts.length + 8) (ts.length + 1) ts

/-- Whole-pipeline model of `python minilisp.py FILE`: tokenize, parse
(a syntax error prints its message and exits 0), then evaluate the top-level
statements (a runtime error prints its message and exits 0 with earlier
output retained; an uncaught host exception keeps stdout but fails).
Returns the complete stdout and the final outcome. -/
def pyRun (fuel : Nat) (src : String) : List String × Res Unit :=
  match parseLisp src with
  | .error (.syn none) => (["syntax error"], .err "syntax error")
  | .error (.syn (some t)) =>
    (["syntax error, unexpected '" ++ t ++ "'"], .err "syntax error")
  | .error .fuel => ([], .timeout)
  | .error .bug => ([], .crash "model-internal")
  | .ok nodes =>
    match runStmts fuel nodes st0 with
    | (st, .ok ()) => (st.out, .ok ())
    | (st, .err m) => (st.out ++ [m], .err m)
    | (st, .crash m) => (st.out, .crash m)
    | (st, .timeout) => (st.out, .timeout)

/-- Stdout of running a source text (the fixed fuel is ample for every
program considered here). -/
def runLisp (src : String) : List String := (pyRun 1000 src).1

/-- Run a list of already-built AST statements from an empty global frame
and return the stdout (error messages appended, as `error_runtime` prints
them). -/
def runNodes (fuel : Nat) (nodes : List Node) : List String :=
  match runStmts fuel nodes st0 with
  | (st, .ok ()) => st.out
  | (st, .err m) => st.out ++ [m]
  | (st, .crash _) => st.out
  | (st, .timeout) => st.out

/-! ### Test programs used by the theorems -/

/-- `(define f (fun () x)) (define x u) (define g (fun (x) (f))) (print-num (g v))`:
`f` is defined before `x` exists (so a snapshot capture would fail), and it
is invoked from inside `g`, whose frame shadows `x` with `v` (so a
call-site-parented frame would print `v`).  Printing `u` is only consistent
with capture of the definition-site environment by shared reference. -/
def progCapture (u v : Int) : List Node :=
  [ .defn (.sym "f") (.fn [] [.varn "x"]),
    .defn (.sym "x") (.val (.int u)),
    .defn (.sym "g") (.fn [.sym "x"] [.call (.varn "f") []]),
    .print true (.call (.varn "g") [.val (.int v)]) ]

/-- `(define x u) (define g (fun (x y) y)) (print-num (g v x))`: the second
argument `x` must be evaluated in the caller's environment (yielding `u`)
even though the new frame already binds `x` to `v` when it is evaluated. -/
def progCallerEnv (u v : Int) : List Node :=
  [ .defn (.sym "x") (.val (.int u)),
    .defn (.sym "g") (.fn [.sym "x", .sym "y"] [.varn "y"]),
    .print true (.call (.varn "g") [.val (.int v), .varn "x"]) ]

/-- `(define pr (fun (n) (print-num n) n)) (define g (fun (a b) a))
(print-num (g (pr u) (pr v)))`: the argument prints appear left to right
before the body print. -/
def progLeftRight (u v : Int) : List Node :=
  [ .defn (.sym "pr") (.fn [.sym "n"] [.print true (.varn "n"), .varn "n"]),
    .defn (.sym "g") (.fn [.sym "a", .sym "b"] [.varn "a"]),
    .print true (.call (.varn "g")
      [.call (.varn "pr") [.val (.int u)], .call (.varn "pr") [.val (.int v)]]) ]

/-- `(define x u) (define f (fun () (define x v) x)) (print-num (f))
(print-num x)`: a body-level `define` of a name bound only in an ancestor
frame succeeds and shadows it; the outer binding is untouched. -/
def progShadow (u v : Int) : List Node :=
  [ .defn (.sym "x") (.val (.int u)),
    .defn (.sym "f") (.fn [] [.defn (.sym "x") (.val (.int v)), .varn "x"]),
    .print true (.call (.varn "f") []),
    .print true (.varn "x") ]

/-- `(define pr (fun (n) (print-num n) n)) (define x u) (define x (pr v))`:
the second `define` of `x` in the same frame must fail before its
right-hand side runs, so `v` is never printed. -/
def progRedef (u v : Int) : List Node :=
  [ .defn (.sym "pr") (.fn [.sym "n"] [.print true (.varn "n"), .varn "n"]),
    .defn (.sym "x") (.val (.int u)),
    .defn (.sym "x") (.call (.varn "pr") [.val (.int v)]) ]

/-- `(print-num ((fun (a b) (print-num a) a) v1 v2))`: a call with matching
arity runs its body (including its print) and produces the body's last
value. -/
def progArityOk (v1 v2 : Int) : List Node :=
  [ .print true (.call (.fn [.sym "a", .sym "b"] [.print true (.varn "a"), .varn "a"])
      [.val (.int v1), .val (.int v2)]) ]

/-- `(print-num (+ a b))` over literal operands. -/
def progAdd (a b : Int) : List Node :=
  [.print true (.op "+" [.val (.int a), .val (.int b)])]

/-- `(print-num (- a b))` over literal operands. -/
def progSub (a b : Int) : List Node :=
  [.print true (.op "-" [.val (.int a), .val (.int b)])]

/-- `(print-num (* a b))` over literal operands. -/
def progMul (a b : Int) : List Node :=
  [.print true (.op "*" [.val (.int a), .val (.int b)])]

/-! ### Claims -/

/-- C1.  Evaluating a lambda produces a closure capturing the definition-site
environment by shared reference, and a call evaluates the body in a new
frame whose parent is that captured environment, never the call-site one;
arguments are evaluated in the caller's environment, left to right.
First conjunct: whenever the callee evaluates to a zero-parameter closure
with captured address `ea`, the call continues as the body evaluated in a
freshly allocated frame whose parent is `ea` — for every call-site
environment `e`.  The remaining conjuncts run the three witness programs
above for all integer inputs. -/
theorem c1_lexical_closure_capture :
    (∀ (fuel : Nat) (f : Node) (e : Nat) (st st1 : St) (body : List Node) (ea : Nat),
      step (fuel + 1) (.node f e) st = (st1, .ok (.v (.closure [] body ea))) →
      step (fuel + 2) (.node (.call f []) e) st
        = step (fuel + 1) (.body body st1.frames.length .vnone)
            { st1 with frames := st1.frames ++ [⟨[], some ea⟩] })
    ∧ (∀ u v : Int, runNodes 100 (progCapture u v) = [toString u])
    ∧ (∀ u v : Int, runNodes 100 (progCallerEnv u v) = [toString u])
    ∧ (∀ u v : Int, runNodes 100 (progLeftRight u v)
        = [toString u, toString v, toString u]) := by
  refine ⟨?_, ?_, ?_, ?_⟩
  · intro fuel f e st st1 body ea h
    change bindV (step (fuel + 1) (MTask.node f e) st) _ = _
    rw [h]
    rfl
  · intro u v
    rfl
  · intro u v
    rfl
  · intro u v
    rfl

/-- C1 witness: the closure-call lemma applied to a concrete lambda. -/
theorem c1_lexical_closure_capture_witness :
    step 2 (.node (.call (.fn [] [.val (.int 3)]) []) 0) st0
      = step 1 (.body [.val (.int 3)] 1 .vnone) ⟨[⟨[], none⟩, ⟨[], some 0⟩], []⟩ :=
  c1_lexical_closure_capture.1 0 (.fn [] [.val (.int 3)]) 0 st0 st0 [.val (.int 3)] 0 rfl

/-- C2.  The claim states `/` equals truncation toward zero for all integers
and nonzero divisors.  The code computes `int(check_num(v1)/v2)`, which goes
through an IEEE double: at `a = 2^53 + 1`, `b = 1` the interpreter prints
`9007199254740992` although the truncated quotient is `9007199254740993`,
so the code contradicts its own stated intent (integer division).  The
divisor-zero half of the claim does hold. -/
theorem c2_division_truncation_fails_on_large_ints :
    runLisp "(print-num (/ 9007199254740993 1))" = ["9007199254740992"]
    ∧ Int.tdiv 9007199254740993 1 = 9007199254740993
    ∧ (9007199254740992 : Int) ≠ 9007199254740993
    ∧ runLisp "(print-num (/ 7 0))" = ["Error: Division by zero"] :=
  ⟨rfl, by decide, by decide, rfl⟩

/-- C3 counterexample.  The claim says an unrecognized character aborts
lexing with a syntax error and no token stream; in fact `re.findall` skips
`@`, yields the token stream of the surrounding valid program, and the
program runs and prints `5`. -/
theorem c3_unrecognized_char_not_an_error :
    runLisp "(print-num 5)@" = ["5"]
    ∧ tokenize "(print-num 5)@" = ["(", "print-num", "5", ")"]
    ∧ (["5"] : List String) ≠ ["syntax error"] :=
  ⟨rfl, rfl, by decide⟩

/-- C3 amended.  Characters recognized by no lexeme rule are silently
dropped by `tokenize`: lexing always succeeds, producing exactly the tokens
of the recognized lexemes, and unrecognized characters merely separate
them. -/
theorem c3_lexer_silently_skips_unrecognized :
    tokenize "@" = ([] : List String)
    ∧ tokenize "a@b" = ["a", "b"]
    ∧ runLisp "@(print-num 5)$" = ["5"]
    ∧ pyRun 1000 "@" = ([], .ok ()) :=
  ⟨rfl, rfl, rfl, rfl⟩

/-- C4 counterexample.  The claim says any Bool operand of an Int-expecting
operator (in particular `=`) raises the number type error; but
`(= 1 2 #t)` short-circuits at `2 ≠ 1` before checking `#t` and prints
`#f`. -/
theorem c4_eq_skips_bool_operand :
    runLisp "(print-bool (= 1 2 #t))" = ["#f"]
    ∧ (["#f"] : List String) ≠ ["Type Error: Expect 'number' but got 'boolean'."] :=
  ⟨rfl, by decide⟩

/-- C4 amended.  A Bool operand of an Int-expecting operator produces
`Type Error: Expect 'number' but got 'boolean'.` exactly when its
`check_num` is reached: `+`, `-`, `*`, `mod`, `>`, `<` check all (evaluated)
operands, `/` checks the divisor first — so `(/ #t 0)` reports division by
zero instead — and `=` stops checking after the first unequal prefix.  The
reverse direction behaves the same way: `not` and a reached `and` operand
reject Ints, while a short-circuited operand goes unchecked. -/
theorem c4_type_error_when_check_reached :
    runLisp "(print-num (+ 1 #t))" = ["Type Error: Expect 'number' but got 'boolean'."]
    ∧ runLisp "(print-num (- #t 1))" = ["Type Error: Expect 'number' but got 'boolean'."]
    ∧ runLisp "(print-num (* 1 #t))" = ["Type Error: Expect 'number' but got 'boolean'."]
    ∧ runLisp "(print-num (mod #t 1))" = ["Type Error: Expect 'number' but got 'boolean'."]
    ∧ runLisp "(print-bool (> #t 1))" = ["Type Error: Expect 'number' but got 'boolean'."]
    ∧ runLisp "(print-bool (< 1 #t))" = ["Type Error: Expect 'number' but got 'boolean'."]
    ∧ runLisp "(print-bool (= 1 1 #t))" = ["Type Error: Expect 'number' but got 'boolean'."]
    ∧ runLisp "(print-num (/ #t 1))" = ["Type Error: Expect 'number' but got 'boolean'."]
    ∧ runLisp "(print-num (/ #t 0))" = ["Error: Division by zero"]
    ∧ runLisp "(print-bool (not 1))" = ["Type Error: Expect 'boolean' but got 'number'."]
    ∧ runLisp "(print-bool (and 1 #t))" = ["Type Error: Expect 'boolean' but got 'number'."]
    ∧ runLisp "(print-bool (and #f 1))" = ["#f"] :=
  ⟨rfl, rfl, rfl, rfl, rfl, rfl, rfl, rfl, rfl, rfl, rfl, rfl⟩

/-- C5 counterexample.  The claim says the AST builder rejects `(define + 1)`
(and any non-symbol name) with a syntax error; in fact `parse_stmt` only
checks the element count, builds `Def('+', 1)`, and the program runs. -/
theorem c5_define_operator_name_accepted :
    parseLisp "(define + 1)" = .ok [.defn (.sym "+") (.val (.int 1))]
    ∧ runLisp "(define + 1) (print-num 2)" = ["2"]
    ∧ (["2"] : List String) ≠ ["syntax error, unexpected '+'"]
    ∧ (["2"] : List String) ≠ ["syntax error"] :=
  ⟨rfl, rfl, by decide, by decide⟩

/-- C5 amended.  `parse_stmt` accepts any s-expression as a `define` name:
an operator spelling or an integer defines successfully (the redefinition
check even sees the `+` binding afterwards), and a list name passes parsing
and only fails at evaluation time with a host `TypeError` (unhashable dict
key), not with a syntax error. -/
theorem c5_define_name_unvalidated :
    runLisp "(define 5 1) (print-num 6)" = ["6"]
    ∧ pyRun 1000 "(define (x) 1)" = ([], .crash "TypeError: unhashable type: 'list'")
    ∧ runLisp "(define + 1) (define + 2)" = ["Error: Redefining + is not allowed."] :=
  ⟨rfl, rfl, rfl⟩

/-- C6.  The claim states `(mod a b)` equals the truncated-division
remainder for all legal operands.  The code computes
`int(math.fmod(a, b))`, converting both ints to IEEE doubles first: at
`a = 2^53 + 1`, `b = 2` the conversion rounds `a` to `2^53` and the
interpreter prints `0`, although the truncated remainder is `1` — contrary
to the C++ integer-modulo behaviour the code's own comment claims to
simulate.  For double-exact operands (such as the spec's `(mod -7 3)`
scenario) the dividend-signed behaviour does hold. -/
theorem c6_mod_truncated_remainder_fails_on_large_ints :
    runLisp "(print-num (mod 9007199254740993 2))" = ["0"]
    ∧ Int.tmod 9007199254740993 2 = 1
    ∧ ((0 : Int) ≠ 1)
    ∧ runLisp "(print-num (mod -7 3))" = ["-1"] :=
  ⟨rfl, by decide, by decide, rfl⟩

/-- C7.  Applying a closure with `N` parameters to `M ≠ N` arguments stops
with exactly `Need N arguments, but got M.` (no `Error:` prefix) before any
argument is evaluated: the final state is the state `st` reached after the
callee alone, whatever the argument expressions are.  With `M = N` the call
runs its body (the body's print appears) and yields the body's value. -/
theorem c7_call_arity_check :
    (∀ (fuel : Nat) (ps : List Sexp) (body args : List Node) (e : Nat) (st : St),
      args.length ≠ ps.length →
      step (fuel + 2) (.node (.call (.fn ps body) args) e) st
        = (st, .err ("Need " ++ toString ps.length ++ " arguments, but got "
            ++ toString args.length ++ ".")))
    ∧ (∀ v1 v2 : Int, runNodes 100 (progArityOk v1 v2) = [toString v1, toString v1]) := by
  refine ⟨?_, ?_⟩
  · intro fuel ps body args e st h
    simp only [step, bindV]
    rw [if_pos h]
  · intro v1 v2
    rfl

/-- C7 witness: a one-parameter lambda applied to zero arguments. -/
theorem c7_call_arity_check_witness :
    step 2 (.node (.call (.fn [.sym "a"] []) []) 0) st0
      = (st0, .err "Need 1 arguments, but got 0.") :=
  c7_call_arity_check.1 0 [.sym "a"] [] [] 0 st0 (by decide)

/-- C8.  Re-`define` of a name already bound in the current frame fails with
`Error: Redefining NAME is not allowed.` without evaluating the right-hand
side (its print never appears), while a body-level `define` of a name bound
only in an ancestor frame succeeds and shadows it for lookups through the
new frame, leaving the outer binding intact. -/
theorem c8_define_redefinition_and_shadowing :
    (∀ u v : Int, runNodes 100 (progShadow u v) = [toString v, toString u])
    ∧ (∀ u v : Int, runNodes 100 (progRedef u v)
        = ["Error: Redefining x is not allowed."]) := by
  refine ⟨?_, ?_⟩
  · intro u v
    rfl
  · intro u v
    rfl

/-- C9.  `and` and `or` evaluate operands left to right and short-circuit:
if the first operand yields `false`, `and` stops with `Bool false` in
exactly the state the first operand produced — the remaining operands,
whatever they are, are never evaluated; if it yields `true`, `and`
continues with the rest from that state.  `or` behaves dually. -/
theorem c9_and_or_short_circuit :
    (∀ (fuel : Nat) (a : Node) (rest : List Node) (e : Nat) (st st1 : St),
      step fuel (.node a e) st = (st1, .ok (.v (.bool false))) →
      step (fuel + 1) (.conj (a :: rest) e) st = (st1, .ok (.v (.bool false))))
    ∧ (∀ (fuel : Nat) (a : Node) (rest : List Node) (e : Nat) (st st1 : St),
      step fuel (.node a e) st = (st1, .ok (.v (.bool true))) →
      step (fuel + 1) (.conj (a :: rest) e) st = step fuel (.conj rest e) st1)
    ∧ (∀ (fuel : Nat) (a : Node) (rest : List Node) (e : Nat) (st st1 : St),
      step fuel (.node a e) st = (st1, .ok (.v (.bool true))) →
      step (fuel + 1) (.disj (a :: rest) e) st = (st1, .ok (.v (.bool true))))
    ∧ (∀ (fuel : Nat) (a : Node) (rest : List Node) (e : Nat) (st st1 : St),
      step fuel (.node a e) st = (st1, .ok (.v (.bool false))) →
      step (fuel + 1) (.disj (a :: rest) e) st = step fuel (.disj rest e) st1) := by
  refine ⟨?_, ?_, ?_, ?_⟩ <;>
    · intro fuel a rest e st st1 h
      simp only [step]
      rw [h]
      rfl

/-- C9 witness: `(and #f (print-num 7))` stops at `#f` with the print
never executed (the state is unchanged). -/
theorem c9_and_or_short_circuit_witness :
    step 2 (.conj [.val (.bool false), .print true (.val (.int 7))] 0) st0
      = (st0, .ok (.v (.bool false))) :=
  c9_and_or_short_circuit.1 1 (.val (.bool false)) [.print true (.val (.int 7))] 0 st0 st0 rfl

/-- C10.  `+`, `-`, `*` are exact arbitrary-precision integer operations:
for all integer operands the printed result is the mathematical sum,
difference or product, and concrete results beyond `2^63 - 1` come out
exactly, with no wraparound and no overflow error. -/
theorem c10_exact_arbitrary_precision_arithmetic :
    (∀ a b : Int, runNodes 100 (progAdd a b) = [toString (a + b)])
    ∧ (∀ a b : Int, runNodes 100 (progSub a b) = [toString (a - b)])
    ∧ (∀ a b : Int, runNodes 100 (progMul a b) = [toString (a * b)])
    ∧ runLisp "(print-num (* 9223372036854775807 2))" = ["18446744073709551614"]
    ∧ runLisp "(print-num (+ 9223372036854775807 1))" = ["9223372036854775808"] := by
  refine ⟨?_, ?_, ?_, rfl, rfl⟩
  · intro a b
    have h : runNodes 100 (progAdd a b) = [toString (0 + a + b)] := rfl
    rw [h, Int.zero_add]
  · intro a b
    rfl
  · intro a b
    have h : runNodes 100 (progMul a b) = [toString (1 * a * b)] := rfl
    rw [h, Int.one_mul]

end MiniLisp
